import Mathlib

/-!
Shallow embedding of the SQLite VFS adapter crate (src/lib.rs and src/vfs.rs).

The crate registers a custom SQLite virtual filesystem: `register` builds a
`sqlite3_vfs` descriptor (plus a `sqlite3_io_methods` table) and hands it to
`sqlite3_vfs_register`; the trampoline `vfs::x_open` is the only callback
wired into the descriptor.  Machine pointers are modelled by `Option` or by
explicit null flags, the engine by an oracle function, and the shared
`Arc<Mutex<...>>` state by explicit state passing (the embedding is
sequential; the lock is the identity in that view).
-/

/-- SQLite status code SQLITE_OK (0), from libsqlite3_sys. -/
def SQLITE_OK : Int := 0

/-- SQLite status code SQLITE_ERROR (1), from libsqlite3_sys. -/
def SQLITE_ERROR : Int := 1

/-- SQLite status code SQLITE_CANTOPEN (14), from libsqlite3_sys. -/
def SQLITE_CANTOPEN : Int := 14

/-- Model of std::io::ErrorKind; the crate only ever uses ErrorKind::Other. -/
inductive ErrorKind where
  | other
  deriving DecidableEq, Repr

/-- Model of std::io::Error as built by std::io::Error::new(kind, msg). -/
structure IoError where
  kind : ErrorKind
  msg : String
  deriving DecidableEq, Repr

/-- lib.rs null_ptr_error(): Error::new(ErrorKind::Other, "received null pointer"). -/
def null_ptr_error : IoError := { kind := ErrorKind.other, msg := "received null pointer" }

/-- The error built inline in vfs.rs x_open for an invalid file pointer:
Error::new(ErrorKind::Other, "invalid file pointer"). -/
def invalid_file_error : IoError := { kind := ErrorKind.other, msg := "invalid file pointer" }

/-- lib.rs trait VFS: the capability interface a backend implements.  The sole
method is fn x_open(&self); its backend-internal effect is modelled as a
function on the backend state sigma. -/
structure VFS (σ : Type) where
  x_open : σ → σ

/-- lib.rs struct VFSState<T>: the shared per-filesystem state.  vfs models the
Arc<T> backend instance (its internal state), last_error models the
Arc<Mutex<Option<(i32, std::io::Error)>>> slot. -/
structure VFSState (σ : Type) where
  vfs : σ
  last_error : Option (Int × IoError)
  deriving DecidableEq, Repr

/-- lib.rs VFSState::set_last_error: takes the lock, overwrites the Option with
Some((code, error)) via Option::insert, and returns the code unchanged. -/
def set_last_error (s : VFSState σ) (code : Int) (error : IoError) : VFSState σ × Int :=
  ({ s with last_error := some (code, error) }, code)

/-- Model of libsqlite3_sys::sqlite3_io_methods built in lib.rs register
(lines 113 to 133).  Each callback slot is a Bool: true when the source puts
Some(trampoline) in the slot, false for None. -/
structure Sqlite3IoMethods where
  iVersion : Int
  xClose : Bool
  xRead : Bool
  xWrite : Bool
  xTruncate : Bool
  xSync : Bool
  xFileSize : Bool
  xLock : Bool
  xUnlock : Bool
  xCheckReservedLock : Bool
  xFileControl : Bool
  xSectorSize : Bool
  xDeviceCharacteristics : Bool
  xShmMap : Bool
  xShmLock : Bool
  xShmBarrier : Bool
  xShmUnmap : Bool
  xFetch : Bool
  xUnfetch : Bool
  deriving DecidableEq, Repr

/-- The io_methods value built (and never used afterwards) in register:
iVersion 2, xClose Some(io_methods::x_close), every other slot None. -/
def io_methods : Sqlite3IoMethods :=
  { iVersion := 2
  , xClose := true
  , xRead := false
  , xWrite := false
  , xTruncate := false
  , xSync := false
  , xFileSize := false
  , xLock := false
  , xUnlock := false
  , xCheckReservedLock := false
  , xFileControl := false
  , xSectorSize := false
  , xDeviceCharacteristics := false
  , xShmMap := false
  , xShmLock := false
  , xShmBarrier := false
  , xShmUnmap := false
  , xFetch := false
  , xUnfetch := false }

/-- Model of the engine-owned header libsqlite3_sys::sqlite3_file: a single
field, the method-table pointer pMethods (none models a pointer that the
adapter has not set). -/
structure Sqlite3File where
  pMethods : Option Sqlite3IoMethods
  deriving DecidableEq, Repr

/-- lib.rs struct FileState<T>: the engine-allocated file handle reinterpreted
by the adapter.  base is the engine-mandated header; ext models the
MaybeUninit<Arc<VFSState<T>>> extension region: none while uninitialized,
some s once the open trampoline has written the shared-state reference
(Arc sharing is modelled by storing the state value itself). -/
structure FileState (σ : Type) where
  base : Sqlite3File
  ext : Option (VFSState σ)
  deriving DecidableEq, Repr

/-- Pointer sizes on the compilation target (64-bit).  An Arc<T> holds one
machine pointer regardless of the pointee type T, so the size of the
extension region does not depend on the backend type; backendSize is the
byte size of the backend type T and is ignored. -/
def arc_size (backendSize : Nat) : Nat := 8

/-- Byte size of libsqlite3_sys::sqlite3_file: one pointer (pMethods). -/
def sqlite3_file_size : Nat := 8

/-- std::mem::size_of::<FileState<T>>(): the engine-mandated header followed by
the adapter extension (both pointer-sized and pointer-aligned, no padding). -/
def FileState_size (backendSize : Nat) : Nat :=
  sqlite3_file_size + arc_size backendSize

/-- Model of libsqlite3_sys::sqlite3_vfs, the virtual filesystem descriptor
built in lib.rs register (lines 145 to 180, default feature configuration).
Callback slots are Bool (true for Some(trampoline), false for None); zName
holds the bytes of the leaked CString; pAppData is true when the opaque
state pointer is non-null; pNext is true when non-null. -/
structure Sqlite3Vfs where
  iVersion : Int
  szOsFile : Int
  mxPathname : Int
  pNext : Bool
  zName : List Nat
  pAppData : Bool
  xOpen : Bool
  xDelete : Bool
  xAccess : Bool
  xFullPathname : Bool
  xDlOpen : Bool
  xDlError : Bool
  xDlSym : Bool
  xDlClose : Bool
  xRandomness : Bool
  xSleep : Bool
  xCurrentTime : Bool
  xGetLastError : Bool
  xCurrentTimeInt64 : Bool
  xSetSystemCall : Bool
  xGetSystemCall : Bool
  xNextSystemCall : Bool
  deriving DecidableEq, Repr

/-- Model of the RegisterError enum of lib.rs.  The Nul variant carries the
position of the first interior nul byte (the payload of std::ffi::NulError);
Register carries the engine result code. -/
inductive RegisterError where
  | Nul : Nat → RegisterError
  | Register : Int → RegisterError
  deriving DecidableEq, Repr

/-- CString::new on the byte string name: fails with a NulError holding the
position of the first interior nul byte, otherwise yields the bytes with the
terminating nul appended. -/
def CString_new (name : List Nat) : Except Nat (List Nat) :=
  if name.contains 0 then Except.error (name.findIdx (fun b => b == 0))
  else Except.ok (name ++ [0])

/-- The sqlite3_vfs record built in register once the name has been converted:
iVersion 2, szOsFile = size_of::<FileState<T>>(), mxPathname 512, pNext null,
pAppData pointing at the boxed Arc<VFSState<T>>, xOpen = Some(vfs::x_open),
every other slot None (default feature configuration of lib.rs). -/
def build_vfs (backendSize : Nat) (cname : List Nat) : Sqlite3Vfs :=
  { iVersion := 2
  , szOsFile := Int.ofNat (FileState_size backendSize)
  , mxPathname := 512
  , pNext := false
  , zName := cname
  , pAppData := true
  , xOpen := true
  , xDelete := false
  , xAccess := false
  , xFullPathname := false
  , xDlOpen := false
  , xDlError := false
  , xDlSym := false
  , xDlClose := false
  , xRandomness := false
  , xSleep := false
  , xCurrentTime := false
  , xGetLastError := false
  , xCurrentTimeInt64 := false
  , xSetSystemCall := false
  , xGetSystemCall := false
  , xNextSystemCall := false }

/-- lib.rs register<T>(name, as_default, vfs).  The engine is modelled as an
oracle mapping the descriptor and the as_default flag to the result code of
sqlite3_vfs_register.  The first component is the Rust return value; the
second records the descriptor handed to the engine registry (none when the
registration call was never reached), so theorems can speak about whether
and with what a registration call was made. -/
def register (backendSize : Nat) (name : List Nat) (as_default : Bool)
    (engine : Sqlite3Vfs → Bool → Int) :
    Except RegisterError Unit × Option Sqlite3Vfs :=
  match CString_new name with
  | Except.error pos => (Except.error (RegisterError.Nul pos), none)
  | Except.ok cname =>
    let vfs := build_vfs backendSize cname
    let result := engine vfs as_default
    if result = SQLITE_OK then (Except.ok (), some vfs)
    else (Except.error (RegisterError.Register result), some vfs)

/-- Arguments of the trampoline vfs::x_open, with each incoming pointer
modelled by a null flag or Option.  vfsNull: arg1 (sqlite3_vfs pointer) is
null; appDataNull: arg1 is valid but its pAppData is null; fileNull: arg2
(sqlite3_file pointer) is null; pOutFlags carries the contents of the cell
behind the pOutFlags pointer (none for a null pointer). -/
structure XOpenArgs where
  vfsNull : Bool
  appDataNull : Bool
  zName : Option (List Nat)
  fileNull : Bool
  flags : Int
  pOutFlags : Option Int
  deriving DecidableEq, Repr

/-- Result of one invocation of vfs::x_open: the returned status code, the
shared VFSState after the call, the memory behind the file pointer after
the call (meaningful when the pointer was non-null), the cell behind
pOutFlags after the call, and the number of invocations of the capability
method V::x_open performed during the call. -/
structure XOpenResult (σ : Type) where
  ret : Int
  state : VFSState σ
  file : FileState σ
  pOutFlags : Option Int
  backendOpenCalls : Nat
  deriving DecidableEq, Repr

/-- lib.rs vfs_state helper: ptr.as_mut() fails on a null sqlite3_vfs pointer,
then (vfs.pAppData as pointer).as_mut() fails on a null pAppData; both
failures yield null_ptr_error.  On success it yields the shared state. -/
def vfs_state (a : XOpenArgs) (st : VFSState σ) : Except IoError (VFSState σ) :=
  if a.vfsNull then Except.error null_ptr_error
  else if a.appDataNull then Except.error null_ptr_error
  else Except.ok st

/-- vfs.rs x_open trampoline.  st is the shared VFSState reachable through a
valid pAppData pointer; f is the memory behind the file pointer.  Following
the source body: recover the state via vfs_state (returning SQLITE_ERROR on
failure); null-check the file pointer (on failure record SQLITE_CANTOPEN
with set_last_error and return that code); otherwise write the shared-state
reference into the uninitialized extension and return SQLITE_OK.  The body
performs no call to the capability method V::x_open (the method-table
assignment to base.pMethods is commented out in the source as well), so
backendOpenCalls is 0 on every path and base is left unchanged. -/
def x_open (a : XOpenArgs) (st : VFSState σ) (f : FileState σ) : XOpenResult σ :=
  match vfs_state a st with
  | Except.error _ =>
    { ret := SQLITE_ERROR, state := st, file := f
    , pOutFlags := a.pOutFlags, backendOpenCalls := 0 }
  | Except.ok state =>
    if a.fileNull then
      let r := set_last_error state SQLITE_CANTOPEN invalid_file_error
      { ret := r.2, state := r.1, file := f
      , pOutFlags := a.pOutFlags, backendOpenCalls := 0 }
    else
      { ret := SQLITE_OK, state := state, file := { f with ext := some state }
      , pOutFlags := a.pOutFlags, backendOpenCalls := 0 }

/-- The backend of the end-to-end counter scenario: its x_open increments a
counter (backend state sigma = Nat). -/
def counterBackend : VFS Nat := { x_open := fun n => n + 1 }

/-- Well-formed trampoline arguments: valid vfs pointer, valid pAppData, valid
file pointer. -/
def validOpenArgs : XOpenArgs :=
  { vfsNull := false, appDataNull := false, zName := some [109, 101, 109, 102, 115]
  , fileNull := false, flags := 0, pOutFlags := some 0 }

/-- Initial shared state of the counter scenario: counter backend at 0, no
recorded error. -/
def counterState0 : VFSState Nat := { vfs := 0, last_error := none }

/-- Engine-allocated file handle before open: pMethods not set by the adapter,
extension uninitialized. -/
def freshFile : FileState Nat := { base := { pMethods := none }, ext := none }

/-- C1: the claim says the open trampoline invokes the backend open capability
exactly once per call, so that a counter backend reaches 2 after two opens.
Evaluating the code at the failing input: two successful x_open calls with
valid pointers return SQLITE_OK yet perform zero invocations of the
capability method, and the counter backend (whose x_open would map the
counter 0 to 2 after two invocations) stays at 0, not 2. -/
theorem x_open_never_invokes_backend_open :
    (x_open validOpenArgs counterState0 freshFile).ret = SQLITE_OK ∧
    (x_open validOpenArgs (x_open validOpenArgs counterState0 freshFile).state
      freshFile).ret = SQLITE_OK ∧
    (x_open validOpenArgs counterState0 freshFile).backendOpenCalls = 0 ∧
    (x_open validOpenArgs (x_open validOpenArgs counterState0 freshFile).state
      freshFile).backendOpenCalls = 0 ∧
    counterBackend.x_open (counterBackend.x_open 0) = 2 ∧
    (x_open validOpenArgs (x_open validOpenArgs counterState0 freshFile).state
      freshFile).state.vfs = 0 ∧
    ¬ (x_open validOpenArgs (x_open validOpenArgs counterState0 freshFile).state
      freshFile).state.vfs = 2 := by
  refine ⟨rfl, rfl, rfl, rfl, rfl, rfl, ?_⟩
  decide

/-- Null sqlite3_vfs pointer argument for the open trampoline. -/
def nullVfsArgs : XOpenArgs :=
  { vfsNull := true, appDataNull := false, zName := none
  , fileNull := false, flags := 0, pOutFlags := none }

/-- C2 counterexample: for a null sqlite3_vfs pointer the open trampoline does
return a failure code (SQLITE_ERROR), but it records nothing in the
last-error slot: starting from a state with no recorded error, the slot is
still empty afterwards, refuting the claim that every trampoline records a
corresponding native error for every null handle pointer. -/
theorem x_open_null_vfs_records_nothing :
    (x_open nullVfsArgs counterState0 freshFile).ret = SQLITE_ERROR ∧
    (x_open nullVfsArgs counterState0 freshFile).state.last_error = none := by
  exact ⟨rfl, rfl⟩

/-- C2 amended: for a null sqlite3_vfs pointer or a null pAppData pointer the
open trampoline returns SQLITE_ERROR and leaves both the shared state and
the file memory untouched (the last-error slot is unreachable through a
null descriptor pointer, so nothing is recorded); for a valid descriptor
but null file pointer it returns SQLITE_CANTOPEN, recording that code with
the invalid-file-pointer native error in the last-error slot, again leaving
the file memory untouched.  No path reads the uninitialized extension. -/
theorem x_open_invalid_pointer_behavior (a : XOpenArgs) (st : VFSState σ)
    (f : FileState σ) :
    ((a.vfsNull = true ∨ a.appDataNull = true) →
      (x_open a st f).ret = SQLITE_ERROR ∧
      (x_open a st f).state = st ∧ (x_open a st f).file = f) ∧
    (a.vfsNull = false → a.appDataNull = false → a.fileNull = true →
      (x_open a st f).ret = SQLITE_CANTOPEN ∧
      (x_open a st f).state.last_error = some (SQLITE_CANTOPEN, invalid_file_error) ∧
      (x_open a st f).file = f) := by
  obtain ⟨vn, adn, zn, fn, fl, pof⟩ := a
  constructor
  · rintro (h | h) <;> simp_all [x_open, vfs_state]
  · rintro h1 h2 h3
    subst h1; subst h2; subst h3
    exact ⟨rfl, rfl, rfl⟩

/-- C2 amended witness: the amended theorem applied at a concrete null-vfs
input and at a concrete null-file input. -/
theorem x_open_invalid_pointer_behavior_witness :
    (x_open nullVfsArgs counterState0 freshFile).ret = SQLITE_ERROR ∧
    (x_open { nullVfsArgs with vfsNull := false, fileNull := true }
      counterState0 freshFile).ret = SQLITE_CANTOPEN := by
  exact ⟨((x_open_invalid_pointer_behavior nullVfsArgs counterState0 freshFile).1
      (Or.inl rfl)).1,
    ((x_open_invalid_pointer_behavior _ counterState0 freshFile).2
      rfl rfl rfl).1⟩

/-- C3: for every name containing an embedded nul byte, register returns the
Nul variant (carrying the position of the first nul byte) and never reaches
the engine registration call: no descriptor is built or handed to the
engine registry (second component none). -/
theorem register_nul_name_no_registration (backendSize : Nat) (name : List Nat)
    (as_default : Bool) (engine : Sqlite3Vfs → Bool → Int)
    (h : name.contains 0 = true) :
    register backendSize name as_default engine =
      (Except.error (RegisterError.Nul (name.findIdx (fun b => b == 0))), none) := by
  have hm : 0 ∈ name := by simpa using h
  simp [register, CString_new, hm]

/-- C3 witness: the name "b NUL x" (bytes 98, 0, 120) yields the Nul error at
position 1 and no registration call. -/
theorem register_nul_name_no_registration_witness :
    register 8 [98, 0, 120] false (fun _ _ => SQLITE_OK) =
      (Except.error (RegisterError.Nul 1), none) := by
  have h := register_nul_name_no_registration 8 [98, 0, 120] false
    (fun _ _ => SQLITE_OK) (by decide)
  simpa using h

/-- C4: for every name without an embedded nul byte, register hands the built
descriptor to the engine and returns Ok exactly when the engine reports
SQLITE_OK; otherwise it returns RegisterError.Register carrying the code
the engine reported. -/
theorem register_valid_name_engine_result (backendSize : Nat) (name : List Nat)
    (as_default : Bool) (engine : Sqlite3Vfs → Bool → Int)
    (h : name.contains 0 = false) :
    ((register backendSize name as_default engine).1 = Except.ok () ↔
      engine (build_vfs backendSize (name ++ [0])) as_default = SQLITE_OK) ∧
    (engine (build_vfs backendSize (name ++ [0])) as_default ≠ SQLITE_OK →
      (register backendSize name as_default engine).1 =
        Except.error (RegisterError.Register
          (engine (build_vfs backendSize (name ++ [0])) as_default))) ∧
    (register backendSize name as_default engine).2 =
      some (build_vfs backendSize (name ++ [0])) := by
  have hm : ¬ (0 ∈ name) := by simpa using h
  by_cases hr : engine (build_vfs backendSize (name ++ [0])) as_default = SQLITE_OK <;>
    simp [register, CString_new, hm, hr]

/-- C4 witness: with the name "m" (byte 109) and an engine accepting the
descriptor, register succeeds and the descriptor was handed over. -/
theorem register_valid_name_engine_result_witness :
    (register 8 [109] false (fun _ _ => SQLITE_OK)).1 = Except.ok () := by
  exact ((register_valid_name_engine_result 8 [109] false
    (fun _ _ => SQLITE_OK) (by decide)).1).mpr rfl

/-- C5: with a valid descriptor pointer (and valid pAppData) but a null file
pointer, the open trampoline records SQLITE_CANTOPEN together with the
invalid-file-pointer native error through set_last_error, returns exactly
the code that set_last_error returned, and leaves the file memory (in
particular the uninitialized extension region) entirely untouched. -/
theorem x_open_null_file_sets_cantopen (a : XOpenArgs) (st : VFSState σ)
    (f : FileState σ) (h1 : a.vfsNull = false) (h2 : a.appDataNull = false)
    (h3 : a.fileNull = true) :
    (x_open a st f).ret = SQLITE_CANTOPEN ∧
    (x_open a st f).ret = (set_last_error st SQLITE_CANTOPEN invalid_file_error).2 ∧
    (x_open a st f).state = (set_last_error st SQLITE_CANTOPEN invalid_file_error).1 ∧
    (x_open a st f).file = f := by
  simp [x_open, vfs_state, h1, h2, h3, set_last_error]

/-- C5 witness: the theorem applied at a concrete null-file input. -/
theorem x_open_null_file_sets_cantopen_witness :
    (x_open { validOpenArgs with fileNull := true } counterState0 freshFile).ret =
      SQLITE_CANTOPEN := by
  exact (x_open_null_file_sets_cantopen { validOpenArgs with fileNull := true }
    counterState0 freshFile rfl rfl rfl).1

/-- C6: the last-error slot is last-write-wins.  Two successive calls of
set_last_error leave exactly the second (code, error) pair in the slot
(the slot is an Option, so it holds at most one pair by construction), and
the backend part of the state is untouched. -/
theorem set_last_error_last_write_wins (st : VFSState σ) (c1 c2 : Int)
    (e1 e2 : IoError) :
    (set_last_error (set_last_error st c1 e1).1 c2 e2).1.last_error = some (c2, e2) ∧
    (set_last_error (set_last_error st c1 e1).1 c2 e2).1.vfs = st.vfs := by
  exact ⟨rfl, rfl⟩

/-- C7: set_last_error stores the (code, error) pair into the last-error slot,
returns the code argument unchanged, and leaves the backend untouched; as a
total function of the sequential model it raises no error itself. -/
theorem set_last_error_stores_and_returns (st : VFSState σ) (c : Int) (e : IoError) :
    (set_last_error st c e).2 = c ∧
    (set_last_error st c e).1.last_error = some (c, e) ∧
    (set_last_error st c e).1.vfs = st.vfs := by
  exact ⟨rfl, rfl, rfl⟩

/-- C8: the claim says the close slot is reachable from an opened file handle.
Evaluating the code: the descriptor indeed wires only the open slot, and
the io-methods table built in register indeed has only the close slot, but
the open trampoline never installs that table (the assignment to
base.pMethods is commented out in the source and the table is dropped
unused), so after a successful open the method-table pointer of the handle
is still unset and no close slot is reachable from it. -/
theorem opened_handle_reaches_no_method_table :
    (build_vfs 8 [109, 101, 109, 102, 115, 0]).xOpen = true ∧
    ((build_vfs 8 [109, 101, 109, 102, 115, 0]).xDelete = false ∧
      (build_vfs 8 [109, 101, 109, 102, 115, 0]).xAccess = false ∧
      (build_vfs 8 [109, 101, 109, 102, 115, 0]).xFullPathname = false ∧
      (build_vfs 8 [109, 101, 109, 102, 115, 0]).xDlOpen = false ∧
      (build_vfs 8 [109, 101, 109, 102, 115, 0]).xDlError = false ∧
      (build_vfs 8 [109, 101, 109, 102, 115, 0]).xDlSym = false ∧
      (build_vfs 8 [109, 101, 109, 102, 115, 0]).xDlClose = false ∧
      (build_vfs 8 [109, 101, 109, 102, 115, 0]).xRandomness = false ∧
      (build_vfs 8 [109, 101, 109, 102, 115, 0]).xSleep = false ∧
      (build_vfs 8 [109, 101, 109, 102, 115, 0]).xCurrentTime = false ∧
      (build_vfs 8 [109, 101, 109, 102, 115, 0]).xGetLastError = false ∧
      (build_vfs 8 [109, 101, 109, 102, 115, 0]).xCurrentTimeInt64 = false ∧
      (build_vfs 8 [109, 101, 109, 102, 115, 0]).xSetSystemCall = false ∧
      (build_vfs 8 [109, 101, 109, 102, 115, 0]).xGetSystemCall = false ∧
      (build_vfs 8 [109, 101, 109, 102, 115, 0]).xNextSystemCall = false) ∧
    (io_methods.xClose = true ∧
      io_methods.xRead = false ∧ io_methods.xWrite = false ∧
      io_methods.xTruncate = false ∧ io_methods.xSync = false ∧
      io_methods.xFileSize = false ∧ io_methods.xLock = false ∧
      io_methods.xUnlock = false ∧ io_methods.xCheckReservedLock = false ∧
      io_methods.xFileControl = false ∧ io_methods.xSectorSize = false ∧
      io_methods.xDeviceCharacteristics = false ∧ io_methods.xShmMap = false ∧
      io_methods.xShmLock = false ∧ io_methods.xShmBarrier = false ∧
      io_methods.xShmUnmap = false ∧ io_methods.xFetch = false ∧
      io_methods.xUnfetch = false) ∧
    (x_open validOpenArgs counterState0 freshFile).ret = SQLITE_OK ∧
    (x_open validOpenArgs counterState0 freshFile).file.base.pMethods = none := by
  decide

/-- C9: whenever register hands a descriptor to the engine, the advertised
file-handle size szOsFile is exactly the byte size of the FileState type,
which is exactly the engine-mandated header (sqlite3_file) plus the adapter
extension (one Arc pointer, independent of the backend type), no more and
no less. -/
theorem register_advertises_exact_handle_size (backendSize : Nat)
    (name : List Nat) (as_default : Bool) (engine : Sqlite3Vfs → Bool → Int)
    (desc : Sqlite3Vfs) (h : (register backendSize name as_default engine).2 = some desc) :
    desc.szOsFile = Int.ofNat (FileState_size backendSize) ∧
    FileState_size backendSize = sqlite3_file_size + arc_size backendSize := by
  by_cases hm : 0 ∈ name
  · simp [register, CString_new, hm] at h
  · by_cases hr : engine (build_vfs backendSize (name ++ [0])) as_default = SQLITE_OK <;>
      simp [register, CString_new, hm, hr] at h <;> subst h <;> exact ⟨rfl, rfl⟩

/-- C9 witness: the theorem applied at a concrete registration that reaches
the engine. -/
theorem register_advertises_exact_handle_size_witness :
    (build_vfs 8 [109, 0]).szOsFile = Int.ofNat (FileState_size 8) := by
  exact (register_advertises_exact_handle_size 8 [109] false (fun _ _ => SQLITE_OK)
    (build_vfs 8 [109, 0]) (by decide)).1

/-- C10: the open trampoline never writes through pOutFlags (the cell behind
the pointer is returned unchanged on every path) and never reads zName or
flags to alter its outcome: replacing both arguments by arbitrary values
leaves the returned code, the shared state, the file memory and the
capability-call count identical. -/
theorem x_open_ignores_name_flags_outflags (a : XOpenArgs) (st : VFSState σ)
    (f : FileState σ) (zn : Option (List Nat)) (fl : Int) :
    x_open { a with zName := zn, flags := fl } st f = x_open a st f ∧
    (x_open a st f).pOutFlags = a.pOutFlags := by
  obtain ⟨vn, adn, zn0, fn, fl0, pof⟩ := a
  cases vn <;> cases adn <;> cases fn <;> exact ⟨rfl, rfl⟩
